import Mathlib

/-!
Shallow embedding of the Noon calendar-agent repository, together with proofs
about the claims of its specification.

The embedding follows the Python sources:
* `src/agent/main.py` — the deployed LangGraph (`hello_world` node, `noon_graph`);
* `src/agent/tools.py` — information-gathering and terminal action tools, plus
  the sync-over-async bridge `_run_async`;
* `src/backend/domains/calendars/schemas.py` — the `CreateEventRequest`
  validator at the schema boundary;
* `src/noon-agent/noon_agent/main.py` — the legacy tool-dispatch loop
  (`_route_after_agent`, `build_agent_graph`).

Python dictionaries are modelled as association lists over a small JSON-like
value type `MVal`; Python `None` is `MVal.null`; an exception raised by an
external collaborator is an `Except.error`; a function that catches every
exception is total.
-/

namespace Noon

/-- Values stored in the string-keyed metadata maps the agent passes around:
Python `None`, strings, nested objects. -/
inductive MVal where
  | null : MVal
  | str : String → MVal
  | obj : List (String × MVal) → MVal

mutual

def MVal.decEq (a b : MVal) : Decidable (a = b) :=
  match a, b with
  | .null, .null => .isTrue rfl
  | .str x, .str y =>
      match String.decEq x y with
      | .isTrue h => .isTrue (by rw [h])
      | .isFalse h => .isFalse (by intro hh; cases hh; exact h rfl)
  | .obj x, .obj y =>
      match MVal.decEqFields x y with
      | .isTrue h => .isTrue (by rw [h])
      | .isFalse h => .isFalse (by intro hh; cases hh; exact h rfl)
  | .null, .str _ => .isFalse (fun h => by cases h)
  | .null, .obj _ => .isFalse (fun h => by cases h)
  | .str _, .null => .isFalse (fun h => by cases h)
  | .str _, .obj _ => .isFalse (fun h => by cases h)
  | .obj _, .null => .isFalse (fun h => by cases h)
  | .obj _, .str _ => .isFalse (fun h => by cases h)

def MVal.decEqFields (a b : List (String × MVal)) : Decidable (a = b) :=
  match a, b with
  | [], [] => .isTrue rfl
  | [], _ :: _ => .isFalse (fun h => by cases h)
  | _ :: _, [] => .isFalse (fun h => by cases h)
  | (k, v) :: r, (k', v') :: r' =>
      match String.decEq k k', MVal.decEq v v', MVal.decEqFields r r' with
      | .isTrue h1, .isTrue h2, .isTrue h3 => .isTrue (by rw [h1, h2, h3])
      | .isFalse h1, _, _ => .isFalse (by intro hh; cases hh; exact h1 rfl)
      | _, .isFalse h2, _ => .isFalse (by intro hh; cases hh; exact h2 rfl)
      | _, _, .isFalse h3 => .isFalse (by intro hh; cases hh; exact h3 rfl)

end

instance : DecidableEq MVal := MVal.decEq

/-- A Python dict with string keys, as the tools use them. -/
abbrev Dict := List (String × MVal)

/-- Key lookup in a dict (first binding wins, as in an assoc list). -/
def Dict.lookup (d : Dict) (k : String) : Option MVal :=
  match d with
  | [] => none
  | (k', v) :: rest => if k' = k then some v else Dict.lookup rest k

/-- Python membership test `k in d`. -/
def Dict.hasKey (d : Dict) (k : String) : Bool :=
  (d.lookup k).isSome

/-- Python `d.get(k)`: the value if the key is present, otherwise `None`. -/
def Dict.get (d : Dict) (k : String) : MVal :=
  (d.lookup k).getD .null

/-- The six members of the closed `ActionKind` enumeration, exactly the
string literals of the `request` field in `src/agent/main.py`. -/
def actionKinds : List String :=
  ["show-event", "show-schedule", "create-event", "update-event",
   "delete-event", "no-action"]

/-! ## src/agent/main.py — the deployed graph -/

/-- Outcome of the underlying LLM call made inside `hello_world`: either a
successful response with its content string, or a raised exception with its
message (`str(e)` in the Python handler). -/
inductive LLMOutcome where
  | ok : String → LLMOutcome
  | exn : String → LLMOutcome


/-- Input channels of the graph `State` that `hello_world` reads: the query
may be absent (the node uses `state.get("query", "")`) and the auth dict is
opaque to the node. -/
structure InputState where
  query : Option String
  auth : Dict


/-- Output channels of the graph (`OutputState` in `src/agent/main.py`):
`success`, `request` (one of the six `ActionKind` literals) and `metadata`. -/
structure OutputState where
  success : Bool
  request : String
  metadata : Dict


/-- Embedding of the `hello_world` node (`src/agent/main.py`, lines 51-79).
The node reads the query with default `""`, invokes the LLM inside a
`try/except Exception` block, and in both branches returns the dict
`{"success": True, "request": "no-action", "metadata": {"reason": ...}}`.
Totality of this function is the embedding of the fact that the `except`
handler catches every exception of the LLM call. -/
def hello_world (state : InputState) (llm : LLMOutcome) : OutputState :=
  let _query := state.query.getD ""
  let llm_response :=
    match llm with
    | .ok content => content
    | .exn error_msg => "Hello, World! I encountered an error: " ++ error_msg.take 200
  { success := true
    request := "no-action"
    metadata := [("reason", MVal.str llm_response)] }

/-- Embedding of the compiled graph `noon_graph` (`src/agent/main.py`,
lines 85-98): the graph wires `START → hello_world → END`, the single node
fully populates the three `OutputState` channels, and the compiled graph
projects exactly those channels. -/
def noon_graph (state : InputState) (llm : LLMOutcome) : OutputState :=
  hello_world state llm

/-- Well-formedness of an `ActionRecord` as the spec states it: a boolean
success field (structural here), a request drawn from the six `ActionKind`
values, and a metadata map (structural here). -/
def wellFormedRecord (r : OutputState) : Prop :=
  r.request ∈ actionKinds

instance (r : OutputState) : Decidable (wellFormedRecord r) := by
  unfold wellFormedRecord; infer_instance

/-! ## src/agent/tools.py — sync-over-async bridge -/

/-- State of the cooperative scheduler (asyncio event loop) in the calling
context when `_run_async` is entered: `asyncio.get_event_loop()` either
returns a loop that is currently running, returns a loop that is not
running, or raises `RuntimeError` because no loop exists. -/
inductive LoopCtx where
  | runningLoop : LoopCtx
  | idleLoop : LoopCtx
  | noLoop : LoopCtx
  deriving DecidableEq

/-- Execution context `_run_async` chooses for driving the coroutine:
either a dedicated worker thread that creates its own fresh event loop
(`_run_async_in_thread`, reached via the `ThreadPoolExecutor` branch or the
`RuntimeError` branch), or the current thread driving the existing idle loop
directly (`loop.run_until_complete`). -/
inductive ExecPath where
  | workerThreadFreshLoop : ExecPath
  | directOnCurrentLoop : ExecPath
  deriving DecidableEq

/-- Embedding of `_run_async_in_thread` (`src/agent/tools.py`, lines 58-65):
a new event loop is created in the worker thread and drives the coroutine to
completion, blocking only the submitting caller on `future.result()`. -/
def run_async_in_thread {α : Type} (coro : Unit → α) : ExecPath × α :=
  (.workerThreadFreshLoop, coro ())

/-- Embedding of `_run_async` (`src/agent/tools.py`, lines 40-56). The
branch structure follows the source: if a loop exists and is running, the
coroutine is submitted to a `ThreadPoolExecutor` running
`_run_async_in_thread` and the caller blocks on the future; if a loop exists
but is not running, `loop.run_until_complete` drives it directly; if no loop
exists (`RuntimeError`), `_run_async_in_thread` is used. The returned
`ExecPath` records which execution context ran the coroutine. -/
def run_async {α : Type} (ctx : LoopCtx) (coro : Unit → α) : ExecPath × α :=
  match ctx with
  | .runningLoop => run_async_in_thread coro
  | .idleLoop => (.directOnCurrentLoop, coro ())
  | .noLoop => run_async_in_thread coro

/-! ## src/agent/tools.py — information-gathering tools

Each tool calls the Calendar Service Port through `_run_async`; the outcome
of that underlying call is passed in as an `Except String` value: `.ok`
carries the service result, `.error` carries the message of a raised
exception. A tool that re-raises returns `Except.error`; a tool that
catches every exception is total in its result type. -/

/-- Projection applied to each kept event by `read_schedule` and
`search_events`: the output dict keeps `id` and `calendar_id` (known
present) and copies `summary`, `start`, `end` via `event.get`, which yields
`None` for absent keys. -/
def projectEvent (event : Dict) : Dict :=
  [("id", event.get "id"),
   ("summary", event.get "summary"),
   ("start", event.get "start"),
   ("end", event.get "end"),
   ("calendar_id", event.get "calendar_id")]

/-- The filtering loop shared by `read_schedule` (lines 94-108) and
`search_events` (lines 138-151): an event missing the key `id` or the key
`calendar_id` is skipped with a warning (`continue`); every kept event is
appended in order, projected to the five output fields. -/
def formatEvents : List Dict → List Dict
  | [] => []
  | event :: rest =>
      if event.hasKey "id" && event.hasKey "calendar_id" then
        projectEvent event :: formatEvents rest
      else
        formatEvents rest

/-- Embedding of the `read_schedule` tool (`src/agent/tools.py`,
lines 69-112). The time-window strings are forwarded to the Calendar
Service unparsed and unvalidated; on a service exception the `except`
block re-raises (`raise`), embedded as `Except.error`. -/
def read_schedule (start_time end_time : String)
    (service : String → String → Except String (List Dict)) :
    Except String (List Dict) :=
  match service start_time end_time with
  | .ok events => .ok (formatEvents events)
  | .error e => .error e

/-- Embedding of the `search_events` tool (`src/agent/tools.py`,
lines 115-155). Same shape as `read_schedule`, except the `except` block
absorbs the failure and returns the empty list, so the tool itself never
raises. -/
def search_events (keywords start_time end_time : String)
    (service : String → String → String → Except String (List Dict)) :
    List Dict :=
  match service keywords start_time end_time with
  | .ok events => formatEvents events
  | .error _ => []

/-- Embedding of the `read_event` tool (`src/agent/tools.py`,
lines 157-192). On success the service dict is patched so that `id` and
`calendar_id` are present (filled from the arguments when missing); on a
service exception the `except` block returns the minimal dict with the
original identifiers and the error message. -/
def read_event (event_id calendar_id : String)
    (service : String → String → Except String Dict) : Dict :=
  match service event_id calendar_id with
  | .ok event =>
      let event := if event.hasKey "id" then event
                   else event ++ [("id", MVal.str event_id)]
      let event := if event.hasKey "calendar_id" then event
                   else event ++ [("calendar_id", MVal.str calendar_id)]
      event
  | .error e =>
      [("id", MVal.str event_id),
       ("calendar_id", MVal.str calendar_id),
       ("error", MVal.str e)]

/-- Embedding of the `list_calendars` tool (`src/agent/tools.py`,
lines 195-215). The service result is returned unchanged; on a service
exception the `except` block absorbs the failure and returns the empty
list. -/
def list_calendars (service : Unit → Except String (List Dict)) : List Dict :=
  match service () with
  | .ok calendars => calendars
  | .error _ => []

/-! ## src/agent/tools.py — terminal action tools -/

/-- Result shape of a terminal tool: a `type` tag (the `ActionKind` literal)
and a metadata dict. -/
structure ToolResult where
  type : String
  metadata : Dict

/-- Embedding of the `show_schedule` tool (`src/agent/tools.py`,
lines 218-237). -/
def show_schedule (start_time end_time : String) : ToolResult :=
  { type := "show-schedule"
    metadata := [("start-date", MVal.str start_time),
                 ("end-date", MVal.str end_time)] }

/-- Embedding of the `show_event` tool (`src/agent/tools.py`,
lines 241-258). -/
def show_event (event_id calendar_id : String) : ToolResult :=
  { type := "show-event"
    metadata := [("event-id", MVal.str event_id),
                 ("calendar-id", MVal.str calendar_id)] }

/-- Python truthiness of an optional-string argument defaulting to `None`:
the value is appended only when it is neither `None` nor the empty string
(`if description:` in the source). -/
def appendIfTruthy (d : Dict) (k : String) (v : Option String) : Dict :=
  match v with
  | none => d
  | some s => if s = "" then d else d ++ [(k, MVal.str s)]

/-- Embedding of the `request_create_event` tool (`src/agent/tools.py`,
lines 262-299). The start and end are always emitted as nested
single-field objects holding a `dateTime` key; `description` and `location`
are appended only when truthy. -/
def request_create_event (summary start_time end_time calendar_id : String)
    (description location : Option String) : ToolResult :=
  let metadata : Dict :=
    [("summary", MVal.str summary),
     ("start", MVal.obj [("dateTime", MVal.str start_time)]),
     ("end", MVal.obj [("dateTime", MVal.str end_time)]),
     ("calendar_id", MVal.str calendar_id)]
  let metadata := appendIfTruthy metadata "description" description
  let metadata := appendIfTruthy metadata "location" location
  { type := "create-event", metadata := metadata }

/-- Python truthiness of an optional time argument that, when truthy, is
appended wrapped in a nested single-field `dateTime` object
(`metadata["start"] = {"dateTime": start_time}` in the source). -/
def appendObjIfTruthy (d : Dict) (k : String) (v : Option String) : Dict :=
  match v with
  | none => d
  | some s => if s = "" then d
              else d ++ [(k, MVal.obj [("dateTime", MVal.str s)])]

/-- Embedding of the `request_update_event` tool (`src/agent/tools.py`,
lines 302-346). `event-id` and `calendar-id` are always present; each
optional field is appended only when truthy, with `start`/`end` wrapped in
a nested `dateTime` object. -/
def request_update_event (event_id calendar_id : String)
    (summary start_time end_time description location : Option String) :
    ToolResult :=
  let metadata : Dict :=
    [("event-id", MVal.str event_id),
     ("calendar-id", MVal.str calendar_id)]
  let metadata := appendIfTruthy metadata "summary" summary
  let metadata := appendObjIfTruthy metadata "start" start_time
  let metadata := appendObjIfTruthy metadata "end" end_time
  let metadata := appendIfTruthy metadata "description" description
  let metadata := appendIfTruthy metadata "location" location
  { type := "update-event", metadata := metadata }

/-- Embedding of the `request_delete_event` tool (`src/agent/tools.py`,
lines 350-367). -/
def request_delete_event (event_id calendar_id : String) : ToolResult :=
  { type := "delete-event"
    metadata := [("event-id", MVal.str event_id),
                 ("calendar-id", MVal.str calendar_id)] }

/-- Embedding of the `do_nothing` tool (`src/agent/tools.py`,
lines 370-387). -/
def do_nothing (reason : String) : ToolResult :=
  { type := "no-action"
    metadata := [("reason", MVal.str reason)] }

/-- Presence, under key `k` of metadata `m`, of a nested object carrying a
`dateTime` field — one half of a full datetime pair. -/
def hasDateTimeAt (m : Dict) (k : String) : Bool :=
  match m.lookup k with
  | some (.obj fields) => (Dict.lookup fields "dateTime").isSome
  | _ => false

/-- Presence, under key `k` of metadata `m`, of a nested object carrying a
`date` field — one half of an all-day date pair. -/
def hasDateAt (m : Dict) (k : String) : Bool :=
  match m.lookup k with
  | some (.obj fields) => (Dict.lookup fields "date").isSome
  | _ => false

/-- A full datetime start/end pair in a terminal-tool metadata dict. -/
def datetimePair (m : Dict) : Bool :=
  hasDateTimeAt m "start" && hasDateTimeAt m "end"

/-- A full all-day date start/end pair in a terminal-tool metadata dict. -/
def datePair (m : Dict) : Bool :=
  hasDateAt m "start" && hasDateAt m "end"

/-! ## src/backend/domains/calendars/schemas.py — the schema boundary -/

/-- Embedding of the pydantic model `CreateEventRequest`
(`src/backend/domains/calendars/schemas.py`, lines 102-123). Datetimes and
dates are opaque instants here; the field `end` is spelled `end_` because
`end` is reserved in Lean. -/
structure CreateEventRequest where
  summary : String
  start : Option Int
  end_ : Option Int
  start_date : Option Int
  end_date : Option Int
  calendar_id : String
  description : Option String
  location : Option String
  timezone : String

/-- Embedding of `CreateEventRequest.validate_date_fields`
(`src/backend/domains/calendars/schemas.py`, lines 112-123): the
`model_validator(mode='after')` that rejects a request unless exactly one of
the full pairs `(start, end)` and `(start_date, end_date)` is provided;
`raise ValueError` is embedded as `Except.error`. -/
def validate_date_fields (r : CreateEventRequest) : Except String CreateEventRequest :=
  let has_datetime := r.start.isSome && r.end_.isSome
  let has_date := r.start_date.isSome && r.end_date.isSome
  if !has_datetime && !has_date then
    .error "Either (start, end) for timed events or (start_date, end_date) for all-day events must be provided"
  else if has_datetime && has_date then
    .error "Cannot provide both datetime and date fields. Use datetime for timed events, date for all-day events."
  else
    .ok r

/-! ## src/noon-agent/noon_agent/main.py — the legacy tool-dispatch loop -/

/-- Messages flowing through the legacy agent graph: human input, an AI
message carrying the names of its requested tool calls, and a tool result
message produced by the tool node. -/
inductive Msg where
  | human : String → Msg
  | ai : String → List String → Msg
  | toolMsg : String → Msg
  deriving DecidableEq

/-- Routing targets of the conditional edge after the agent node. -/
inductive Route where
  | tools : Route
  | done : Route
  deriving DecidableEq

/-- Embedding of `_route_after_agent`
(`src/noon-agent/noon_agent/main.py`, lines 33-42): an empty message list
ends the run; a last message that is an `AIMessage` with a non-empty
`tool_calls` list routes to the tool node; anything else ends the run. -/
def route_after_agent (messages : List Msg) : Route :=
  match messages.getLast? with
  | none => .done
  | some (.ai _ tool_calls) => if tool_calls.isEmpty then .done else .tools
  | some _ => .done

/-- Tool calls of the last message, as the `ToolNode` reads them. -/
def lastToolCalls (messages : List Msg) : List String :=
  match messages.getLast? with
  | some (.ai _ tool_calls) => tool_calls
  | _ => []

/-- Node currently in control of the legacy graph built by
`build_agent_graph` (`src/noon-agent/noon_agent/main.py`, lines 45-85). -/
inductive NodeTag where
  | agent : NodeTag
  | tools : NodeTag
  | done : NodeTag
  deriving DecidableEq

/-- Running state of one invocation of the legacy graph: the accumulated
message list, the node in control, and the number of completed
reasoning-to-gathering transitions (agent steps that routed to the tool
node). -/
structure RunState where
  messages : List Msg
  node : NodeTag
  roundTrips : Nat
  deriving DecidableEq

/-- One superstep of the legacy graph built by `build_agent_graph`: at the
agent node, the model (the LLM behind `agent_node`) appends its response
and the conditional edge `_route_after_agent` picks the next node; at the
tool node, the `ToolNode` appends one tool message per requested call and
the unconditional edge `tools → agent` returns control to the agent. -/
def stepGraph (model : List Msg → Msg) (s : RunState) : RunState :=
  match s.node with
  | .agent =>
      let msgs := s.messages ++ [model s.messages]
      match route_after_agent msgs with
      | .tools => { messages := msgs, node := .tools, roundTrips := s.roundTrips + 1 }
      | .done => { messages := msgs, node := .done, roundTrips := s.roundTrips }
  | .tools =>
      { messages := s.messages ++ (lastToolCalls s.messages).map Msg.toolMsg,
        node := .agent,
        roundTrips := s.roundTrips }
  | .done => s

/-- Initial state of one run, as `invoke_agent` seeds it: a single human
message and control at the agent node (`START → agent`). -/
def initRun (query : String) : RunState :=
  { messages := [Msg.human query], node := .agent, roundTrips := 0 }

/-- The legacy graph run for `n` supersteps under a given model. -/
def runGraph (model : List Msg → Msg) (query : String) : Nat → RunState
  | 0 => initRun query
  | n + 1 => stepGraph model (runGraph model query n)

/-- Formalisation of the round-trip-bound claim over the legacy loop: some
configured bound caps the number of reasoning-to-gathering round trips of
every run. -/
def boundedRoundTrips : Prop :=
  ∃ B : Nat, ∀ (model : List Msg → Msg) (query : String) (n : Nat),
    (runGraph model query n).roundTrips ≤ B

/-- A model stub that always requests one more tool call, as in the
simulation the spec describes for exercising the bound. -/
def alwaysToolModel : List Msg → Msg :=
  fun _ => Msg.ai "calling a tool" ["ping"]

/-- Whether metadata `m` holds a non-empty string under key `k`. -/
def nonEmptyStrAt (m : Dict) (k : String) : Bool :=
  match m.lookup k with
  | some (.str s) => s != ""
  | _ => false

/-- A sample raw event as the Calendar Service returns them, carrying both
required identifying fields. -/
def sampleEvent : Dict :=
  [("id", MVal.str "evt-1"),
   ("calendar_id", MVal.str "cal-1"),
   ("summary", MVal.str "Dentist")]

/-- A sample timed `CreateEventRequest` carrying the datetime pair only. -/
def sampleTimedRequest : CreateEventRequest :=
  { summary := "Lunch"
    start := some 0
    end_ := some 3600
    start_date := none
    end_date := none
    calendar_id := "cal-1"
    description := none
    location := none
    timezone := "UTC" }

/-! ## Theorems about the claims -/

/-- Lookup distributes over dict concatenation, first binding winning. -/
theorem Dict.lookup_append (d e : Dict) (k : String) :
    Dict.lookup (d ++ e) k = ((d.lookup k).or (e.lookup k)) := by
  induction d with
  | nil => simp [Dict.lookup]
  | cons kv rest ih =>
      obtain ⟨k', v⟩ := kv
      by_cases h : k' = k
      · simp [Dict.lookup, h]
      · simp [Dict.lookup, h, ih]

/-- A key already bound in `d` is unaffected by `appendIfTruthy`. -/
theorem appendIfTruthy_lookup_some (d : Dict) (k k' : String) (v : Option String)
    (w : MVal) (h : d.lookup k' = some w) :
    (appendIfTruthy d k v).lookup k' = some w := by
  cases v with
  | none => exact h
  | some s =>
      by_cases hs : s = ""
      · simp [appendIfTruthy, hs, h]
      · simp [appendIfTruthy, hs, Dict.lookup_append, h]

/-- A key already bound in `d` is unaffected by `appendObjIfTruthy`. -/
theorem appendObjIfTruthy_lookup_some (d : Dict) (k k' : String) (v : Option String)
    (w : MVal) (h : d.lookup k' = some w) :
    (appendObjIfTruthy d k v).lookup k' = some w := by
  cases v with
  | none => exact h
  | some s =>
      by_cases hs : s = ""
      · simp [appendObjIfTruthy, hs, h]
      · simp [appendObjIfTruthy, hs, Dict.lookup_append, h]

/-- C1: for every input query (present, absent or empty) and every outcome
of the underlying LLM call (success or raised exception), one invocation of
the core entry point `hello_world` returns a well-formed `ActionRecord` —
boolean success field, request drawn from the six `ActionKind` values,
metadata map — and, `hello_world` being total on `LLMOutcome`, never lets
an exception escape past the entry point. -/
theorem hello_world_always_wellformed (state : InputState) (llm : LLMOutcome) :
    wellFormedRecord (hello_world state llm) ∧
    ((hello_world state llm).success = true ∨ (hello_world state llm).success = false) ∧
    ∃ reason : String,
      (hello_world state llm).metadata = [("reason", MVal.str reason)] := by
  refine ⟨?_, Or.inl rfl, ?_⟩
  · simp [wellFormedRecord, hello_world, actionKinds]
  · cases llm with
    | ok content => exact ⟨content, rfl⟩
    | exn e => exact ⟨"Hello, World! I encountered an error: " ++ e.take 200, rfl⟩

/-- C10: for every input state and every outcome of the LLM call (including
a raised exception), the compiled graph `noon_graph` returns an
`ActionRecord` with `success = true`, `request = "no-action"` and a string
`metadata.reason`; since this holds for all inputs, no other `ActionKind`
and no `success = false` output is reachable from the deployed graph. -/
theorem noon_graph_always_noaction (state : InputState) (llm : LLMOutcome) :
    (noon_graph state llm).success = true ∧
    (noon_graph state llm).request = "no-action" ∧
    ∃ reason : String,
      ((noon_graph state llm).metadata).lookup "reason" = some (MVal.str reason) := by
  refine ⟨rfl, rfl, ?_⟩
  cases llm with
  | ok content => exact ⟨content, rfl⟩
  | exn e => exact ⟨"Hello, World! I encountered an error: " ++ e.take 200, rfl⟩

/-- C4: whenever the underlying Calendar Service lookup raises, `read_event`
returns a minimal record carrying the original `event_id` and `calendar_id`
plus an explicit `error` field holding the message, never raises past the
tool boundary (it is total in `Dict`), and never returns an empty result. -/
theorem read_event_failure_minimal_record (event_id calendar_id msg : String)
    (service : String → String → Except String Dict)
    (hfail : service event_id calendar_id = Except.error msg) :
    (read_event event_id calendar_id service).lookup "id" = some (MVal.str event_id) ∧
    (read_event event_id calendar_id service).lookup "calendar_id" = some (MVal.str calendar_id) ∧
    (read_event event_id calendar_id service).lookup "error" = some (MVal.str msg) ∧
    read_event event_id calendar_id service ≠ [] := by
  unfold read_event
  rw [hfail]
  refine ⟨rfl, ?_, ?_, ?_⟩
  · simp [Dict.lookup]
  · simp [Dict.lookup]
  · simp

theorem read_event_failure_minimal_record_witness :
    (read_event "evt-1" "cal-1" (fun _ _ => Except.error "boom")).lookup "error" =
      some (MVal.str "boom") :=
  (read_event_failure_minimal_record "evt-1" "cal-1" "boom"
    (fun _ _ => Except.error "boom") rfl).2.2.1

/-- C5: the asymmetric failure policy of the three tools — when the
underlying Calendar Service call raises, `read_schedule` propagates the
error to its caller while `search_events` and `list_calendars` absorb it
and return the empty sequence — holds for every failing invocation. -/
theorem failure_policy_asymmetry (start_time end_time keywords msg : String)
    (svcSchedule : String → String → Except String (List Dict))
    (svcSearch : String → String → String → Except String (List Dict))
    (svcCalendars : Unit → Except String (List Dict))
    (h1 : svcSchedule start_time end_time = Except.error msg)
    (h2 : svcSearch keywords start_time end_time = Except.error msg)
    (h3 : svcCalendars () = Except.error msg) :
    read_schedule start_time end_time svcSchedule = Except.error msg ∧
    search_events keywords start_time end_time svcSearch = [] ∧
    list_calendars svcCalendars = [] := by
  unfold read_schedule search_events list_calendars
  rw [h1, h2, h3]
  exact ⟨rfl, rfl, rfl⟩

/-- Lookup of the `start` field of `request_create_event` metadata. -/
theorem request_create_event_start (summary start_time end_time calendar_id : String)
    (description location : Option String) :
    (request_create_event summary start_time end_time calendar_id
      description location).metadata.lookup "start" =
      some (MVal.obj [("dateTime", MVal.str start_time)]) := by
  unfold request_create_event
  apply appendIfTruthy_lookup_some
  apply appendIfTruthy_lookup_some
  simp [Dict.lookup]

/-- Lookup of the `end` field of `request_create_event` metadata. -/
theorem request_create_event_end (summary start_time end_time calendar_id : String)
    (description location : Option String) :
    (request_create_event summary start_time end_time calendar_id
      description location).metadata.lookup "end" =
      some (MVal.obj [("dateTime", MVal.str end_time)]) := by
  unfold request_create_event
  apply appendIfTruthy_lookup_some
  apply appendIfTruthy_lookup_some
  simp [Dict.lookup]

/-- C3: every create-event record produced by the terminal create tool
carries a full `dateTime` start/end pair and no all-day `date` pair, and
every `CreateEventRequest` accepted by the schema validator carries exactly
one of the full datetime pair and the full date pair — never both, never
neither. -/
theorem create_event_exactly_one_pair :
    (∀ (summary start_time end_time calendar_id : String)
       (description location : Option String),
        datetimePair (request_create_event summary start_time end_time calendar_id
          description location).metadata = true ∧
        datePair (request_create_event summary start_time end_time calendar_id
          description location).metadata = false) ∧
    (∀ r r' : CreateEventRequest, validate_date_fields r = Except.ok r' →
        (((r'.start.isSome && r'.end_.isSome) ^^
          (r'.start_date.isSome && r'.end_date.isSome)) = true)) := by
  constructor
  · intro summary start_time end_time calendar_id description location
    have hs := request_create_event_start summary start_time end_time calendar_id
      description location
    have he := request_create_event_end summary start_time end_time calendar_id
      description location
    constructor
    · simp [datetimePair, hasDateTimeAt, hs, he, Dict.lookup]
    · simp [datePair, hasDateAt, hs, he, Dict.lookup]
  · intro r r' h
    unfold validate_date_fields at h
    cases hdt : (r.start.isSome && r.end_.isSome) <;>
      cases hd : (r.start_date.isSome && r.end_date.isSome) <;>
        rw [hdt, hd] at h <;> simp at h
    · obtain rfl := h
      rw [hdt, hd]
      rfl
    · obtain rfl := h
      rw [hdt, hd]
      rfl

theorem create_event_exactly_one_pair_witness :
    validate_date_fields sampleTimedRequest = Except.ok sampleTimedRequest ∧
    ((sampleTimedRequest.start.isSome && sampleTimedRequest.end_.isSome) ^^
     (sampleTimedRequest.start_date.isSome && sampleTimedRequest.end_date.isSome)) = true :=
  ⟨rfl, create_event_exactly_one_pair.2 sampleTimedRequest sampleTimedRequest rfl⟩

/-- C6 counterexample: `show_event` called with an empty event identifier
(the tools validate none of their string arguments) yields metadata whose
`event-id` key is present but holds the empty string, so the non-emptiness
half of the claim fails on the code. -/
theorem terminal_ids_nonempty_counterexample :
    (show_event "" "cal-1").metadata.lookup "event-id" = some (MVal.str "") ∧
    nonEmptyStrAt (show_event "" "cal-1").metadata "event-id" = false := by
  exact ⟨rfl, rfl⟩

/-- C6 amended: for every output of the show-event, update-event and
delete-event terminal tools, the metadata keys `event-id` and `calendar-id`
are both present and hold exactly the identifiers passed in; in particular
they are non-empty whenever the passed identifiers are non-empty (the tools
themselves enforce no non-emptiness). -/
theorem terminal_ids_present (event_id calendar_id : String)
    (summary start_time end_time description location : Option String)
    (hne : event_id ≠ "" ∧ calendar_id ≠ "") :
    ((show_event event_id calendar_id).metadata.lookup "event-id" =
        some (MVal.str event_id) ∧
     (show_event event_id calendar_id).metadata.lookup "calendar-id" =
        some (MVal.str calendar_id) ∧
     (request_update_event event_id calendar_id summary start_time end_time
        description location).metadata.lookup "event-id" =
        some (MVal.str event_id) ∧
     (request_update_event event_id calendar_id summary start_time end_time
        description location).metadata.lookup "calendar-id" =
        some (MVal.str calendar_id) ∧
     (request_delete_event event_id calendar_id).metadata.lookup "event-id" =
        some (MVal.str event_id) ∧
     (request_delete_event event_id calendar_id).metadata.lookup "calendar-id" =
        some (MVal.str calendar_id)) ∧
    (nonEmptyStrAt (show_event event_id calendar_id).metadata "event-id" = true ∧
     nonEmptyStrAt (show_event event_id calendar_id).metadata "calendar-id" = true ∧
     nonEmptyStrAt (request_update_event event_id calendar_id summary start_time
        end_time description location).metadata "event-id" = true ∧
     nonEmptyStrAt (request_update_event event_id calendar_id summary start_time
        end_time description location).metadata "calendar-id" = true ∧
     nonEmptyStrAt (request_delete_event event_id calendar_id).metadata "event-id" = true ∧
     nonEmptyStrAt (request_delete_event event_id calendar_id).metadata "calendar-id" = true) := by
  obtain ⟨hne1, hne2⟩ := hne
  have hue : (request_update_event event_id calendar_id summary start_time end_time
      description location).metadata.lookup "event-id" = some (MVal.str event_id) := by
    unfold request_update_event
    apply appendIfTruthy_lookup_some
    apply appendIfTruthy_lookup_some
    apply appendObjIfTruthy_lookup_some
    apply appendObjIfTruthy_lookup_some
    apply appendIfTruthy_lookup_some
    simp [Dict.lookup]
  have huc : (request_update_event event_id calendar_id summary start_time end_time
      description location).metadata.lookup "calendar-id" = some (MVal.str calendar_id) := by
    unfold request_update_event
    apply appendIfTruthy_lookup_some
    apply appendIfTruthy_lookup_some
    apply appendObjIfTruthy_lookup_some
    apply appendObjIfTruthy_lookup_some
    apply appendIfTruthy_lookup_some
    simp [Dict.lookup]
  refine ⟨⟨rfl, rfl, hue, huc, rfl, rfl⟩, ?_, ?_, ?_, ?_, ?_, ?_⟩
  · simp [nonEmptyStrAt, show_event, Dict.lookup, hne1]
  · simp [nonEmptyStrAt, show_event, Dict.lookup, hne2]
  · simp [nonEmptyStrAt, hue, hne1]
  · simp [nonEmptyStrAt, huc, hne2]
  · simp [nonEmptyStrAt, request_delete_event, Dict.lookup, hne1]
  · simp [nonEmptyStrAt, request_delete_event, Dict.lookup, hne2]

theorem terminal_ids_present_witness :
    (show_event "evt-1" "cal-1").metadata.lookup "event-id" = some (MVal.str "evt-1") ∧
    nonEmptyStrAt (request_delete_event "evt-1" "cal-1").metadata "calendar-id" = true :=
  ⟨(terminal_ids_present "evt-1" "cal-1" none none none none none
      ⟨by decide, by decide⟩).1.1,
   (terminal_ids_present "evt-1" "cal-1" none none none none none
      ⟨by decide, by decide⟩).2.2.2.2.2.2⟩

theorem failure_policy_asymmetry_witness :
    read_schedule "2026-01-14T00:00:00-08:00" "2026-01-14T23:59:59-08:00"
      (fun _ _ => Except.error "upstream down") = Except.error "upstream down" ∧
    search_events "dentist" "2026-01-14T00:00:00-08:00" "2026-01-14T23:59:59-08:00"
      (fun _ _ _ => Except.error "upstream down") = [] ∧
    list_calendars (fun _ => Except.error "upstream down") = [] :=
  failure_policy_asymmetry "2026-01-14T00:00:00-08:00" "2026-01-14T23:59:59-08:00"
    "dentist" "upstream down" _ _ _ rfl rfl rfl

/-- The filtering loop of the two event-listing tools equals, declaratively,
keeping exactly the events that carry both identifying fields and projecting
each to the five output fields. -/
theorem formatEvents_eq_filter_map (events : List Dict) :
    formatEvents events =
      (events.filter (fun e => e.hasKey "id" && e.hasKey "calendar_id")).map
        projectEvent := by
  induction events with
  | nil => rfl
  | cons e rest ih =>
      by_cases h : (e.hasKey "id" && e.hasKey "calendar_id") = true
      · simp [formatEvents, h, List.filter_cons, ih]
      · simp [formatEvents, h, List.filter_cons, ih]

/-- The projection keeps the original `id` binding of the event. -/
theorem projectEvent_id (e : Dict) :
    (projectEvent e).lookup "id" = some (e.get "id") := rfl

/-- The projection keeps the original `calendar_id` binding of the event. -/
theorem projectEvent_calendar_id (e : Dict) :
    (projectEvent e).lookup "calendar_id" = some (e.get "calendar_id") := by
  simp [projectEvent, Dict.lookup]

/-- Every item emitted by the filtering loop is the projection of some input
event that carries both identifying fields. -/
theorem formatEvents_sound (events : List Dict) :
    ∀ out ∈ formatEvents events, ∃ e ∈ events,
      (e.hasKey "id" && e.hasKey "calendar_id") = true ∧ out = projectEvent e := by
  induction events with
  | nil => intro out hmem; cases hmem
  | cons e rest ih =>
      intro out hmem
      by_cases h : (e.hasKey "id" && e.hasKey "calendar_id") = true
      · rw [formatEvents, if_pos h] at hmem
        rcases List.mem_cons.mp hmem with heq | htail
        · exact ⟨e, List.mem_cons_self e rest, h, heq⟩
        · obtain ⟨e', hmem', hfields, hout⟩ := ih out htail
          exact ⟨e', List.mem_cons_of_mem e hmem', hfields, hout⟩
      · rw [formatEvents, if_neg h] at hmem
        obtain ⟨e', hmem', hfields, hout⟩ := ih out hmem
        exact ⟨e', List.mem_cons_of_mem e hmem', hfields, hout⟩

/-- C7: for every event list the Calendar Service returns to
`read_schedule` or `search_events`, the tool result keeps exactly the items
carrying both `id` and `calendar_id` (items missing either are dropped, not
substituted), and every returned item carries both identifiers, copied from
the originating input event. -/
theorem gathered_events_carry_both_ids (start_time end_time keywords : String)
    (events : List Dict)
    (svcSchedule : String → String → Except String (List Dict))
    (svcSearch : String → String → String → Except String (List Dict))
    (h1 : svcSchedule start_time end_time = Except.ok events)
    (h2 : svcSearch keywords start_time end_time = Except.ok events) :
    read_schedule start_time end_time svcSchedule =
      Except.ok ((events.filter
        (fun e => e.hasKey "id" && e.hasKey "calendar_id")).map projectEvent) ∧
    search_events keywords start_time end_time svcSearch =
      (events.filter
        (fun e => e.hasKey "id" && e.hasKey "calendar_id")).map projectEvent ∧
    ∀ out ∈ formatEvents events,
      (out.lookup "id").isSome ∧ (out.lookup "calendar_id").isSome ∧
      ∃ e ∈ events, (e.hasKey "id" && e.hasKey "calendar_id") = true ∧
        out.lookup "id" = some (e.get "id") ∧
        out.lookup "calendar_id" = some (e.get "calendar_id") := by
  refine ⟨?_, ?_, ?_⟩
  · unfold read_schedule
    rw [h1]
    exact congrArg Except.ok (formatEvents_eq_filter_map events)
  · unfold search_events
    rw [h2]
    exact formatEvents_eq_filter_map events
  · intro out hmem
    obtain ⟨e, hmem', hfields, rfl⟩ := formatEvents_sound events out hmem
    refine ⟨?_, ?_, e, hmem', hfields, projectEvent_id e, projectEvent_calendar_id e⟩
    · rw [projectEvent_id]; rfl
    · rw [projectEvent_calendar_id]; rfl

theorem gathered_events_carry_both_ids_witness :
    read_schedule "2026-01-14T00:00:00-08:00" "2026-01-14T23:59:59-08:00"
      (fun _ _ => Except.ok [sampleEvent, [("summary", MVal.str "no ids")]]) =
      Except.ok [projectEvent sampleEvent] :=
  (gathered_events_carry_both_ids "2026-01-14T00:00:00-08:00"
    "2026-01-14T23:59:59-08:00" "dentist"
    [sampleEvent, [("summary", MVal.str "no ids")]]
    (fun _ _ => Except.ok [sampleEvent, [("summary", MVal.str "no ids")]])
    (fun _ _ _ => Except.ok [sampleEvent, [("summary", MVal.str "no ids")]])
    rfl rfl).1

/-- C8 counterexample: a window whose start is not before its end (here the
start string is the end of the day and the end string its beginning, in one
fixed UTC offset, so lexicographic order on the ISO strings is chronological
order) is not rejected by either tool: the Calendar Service call is issued
anyway and its outcome — success or failure alike — is forwarded to the
caller, so no `start < end` check happens before the tools accept the
window. -/
theorem window_check_counterexample :
    ¬ ("2026-01-14T23:59:59-08:00".data < "2026-01-14T00:00:00-08:00".data) ∧
    read_schedule "2026-01-14T23:59:59-08:00" "2026-01-14T00:00:00-08:00"
      (fun _ _ => Except.ok [sampleEvent]) = Except.ok [projectEvent sampleEvent] ∧
    read_schedule "2026-01-14T23:59:59-08:00" "2026-01-14T00:00:00-08:00"
      (fun _ _ => Except.error "service reached") = Except.error "service reached" ∧
    search_events "dentist" "2026-01-14T23:59:59-08:00" "2026-01-14T00:00:00-08:00"
      (fun _ _ _ => Except.ok [sampleEvent]) = [projectEvent sampleEvent] := by
  refine ⟨by decide, rfl, rfl, rfl⟩

/-- C8 amended: neither `read_schedule` nor `search_events` validates the
time window: for every window, including every window whose start is not
strictly before its end, the tools issue the Calendar Service call with the
window unchanged and return the formatted service result. -/
theorem window_forwarded_unchecked (start_time end_time keywords msg : String)
    (events : List Dict)
    (_h : ¬ start_time.data < end_time.data) :
    read_schedule start_time end_time (fun _ _ => Except.ok events) =
      Except.ok (formatEvents events) ∧
    search_events keywords start_time end_time (fun _ _ _ => Except.ok events) =
      formatEvents events ∧
    read_schedule start_time end_time (fun _ _ => Except.error msg) =
      Except.error msg := by
  exact ⟨rfl, rfl, rfl⟩

theorem window_forwarded_unchecked_witness :
    read_schedule "2026-01-14T23:59:59-08:00" "2026-01-14T00:00:00-08:00"
      (fun _ _ => Except.ok [sampleEvent]) = Except.ok (formatEvents [sampleEvent]) :=
  (window_forwarded_unchecked "2026-01-14T23:59:59-08:00"
    "2026-01-14T00:00:00-08:00" "dentist" "boom" [sampleEvent] (by decide)).1

/-- C9: whenever a cooperative scheduler is already running in the calling
context, `_run_async` never re-enters it: it hands the coroutine to a worker
thread that creates its own fresh event loop and blocks only the calling
cycle on the result; the direct `run_until_complete` path is taken exactly
when the existing loop is not running; and on every path the coroutine is
driven to completion. -/
theorem run_async_scheduler_safety {α : Type} (ctx : LoopCtx) (coro : Unit → α) :
    (ctx = LoopCtx.runningLoop →
      run_async ctx coro = (ExecPath.workerThreadFreshLoop, coro ())) ∧
    ((run_async ctx coro).1 = ExecPath.directOnCurrentLoop ↔ ctx = LoopCtx.idleLoop) ∧
    (run_async ctx coro).2 = coro () := by
  cases ctx <;> simp [run_async, run_async_in_thread]

theorem run_async_scheduler_safety_witness :
    run_async LoopCtx.runningLoop (fun _ => (42 : Nat)) =
      (ExecPath.workerThreadFreshLoop, 42) :=
  (run_async_scheduler_safety LoopCtx.runningLoop (fun _ => (42 : Nat))).1 rfl

/-- Routing after an agent response that requests at least one tool call
always continues to the tool node. -/
theorem route_after_concat_ai (msgs : List Msg) (c t : String) (ts : List String) :
    route_after_agent (msgs ++ [Msg.ai c (t :: ts)]) = Route.tools := by
  unfold route_after_agent
  rw [List.getLast?_concat]
  rfl

/-- Routing after an agent response with no tool calls ends the run. -/
theorem route_after_concat_no_tools (msgs : List Msg) (c : String) :
    route_after_agent (msgs ++ [Msg.ai c []]) = Route.done := by
  unfold route_after_agent
  rw [List.getLast?_concat]
  rfl

/-- Under the model stub that always requests a tool call, the legacy graph
is back at the agent node after every even number of supersteps, having
completed exactly one reasoning-to-gathering round trip per two supersteps —
the round-trip count of a run is unbounded in the run length. -/
theorem alwaysTool_run_unbounded (query : String) (k : Nat) :
    (runGraph alwaysToolModel query (2 * k)).node = NodeTag.agent ∧
    (runGraph alwaysToolModel query (2 * k)).roundTrips = k := by
  induction k with
  | zero => exact ⟨rfl, rfl⟩
  | succ k ih =>
      obtain ⟨hn, hr⟩ := ih
      have h2 : 2 * (k + 1) = 2 * k + 1 + 1 := by ring
      rw [h2]
      have hstep1 : runGraph alwaysToolModel query (2 * k + 1) =
          { messages := (runGraph alwaysToolModel query (2 * k)).messages ++
              [Msg.ai "calling a tool" ["ping"]],
            node := NodeTag.tools,
            roundTrips := (runGraph alwaysToolModel query (2 * k)).roundTrips + 1 } := by
        show stepGraph alwaysToolModel (runGraph alwaysToolModel query (2 * k)) = _
        unfold stepGraph
        rw [hn]
        simp only [alwaysToolModel, route_after_concat_ai]
      have hstep2 : runGraph alwaysToolModel query (2 * k + 1 + 1) =
          stepGraph alwaysToolModel (runGraph alwaysToolModel query (2 * k + 1)) := rfl
      rw [hstep2, hstep1]
      unfold stepGraph
      exact ⟨rfl, by simp [hr]⟩

/-- C2 counterexample: the legacy dispatch loop has no configured bound on
reasoning-to-gathering round trips — under a model that always requests one
more tool call, a run of length `2 * (B + 1)` completes `B + 1` round trips,
so no bound `B` caps every run. -/
theorem round_trip_bound_counterexample : ¬ boundedRoundTrips := by
  rintro ⟨B, hB⟩
  have h1 := (alwaysTool_run_unbounded "cancel my dentist appointment" (B + 1)).2
  have h2 := hB alwaysToolModel "cancel my dentist appointment" (2 * (B + 1))
  omega

/-- C2 amended: the legacy dispatch loop enforces no maximum number of
reasoning-to-gathering round trips: a model that always requests a tool
call drives a run through `k` round trips for every `k`, with the run still
live (never terminated, no no-action exhaustion record produced — the graph
emits no `ActionRecord` at all), and the only termination condition is an
agent message without tool calls. -/
theorem dispatch_loop_unbounded (query : String) (k : Nat) (msgs : List Msg)
    (c t : String) (ts : List String) :
    (runGraph alwaysToolModel query (2 * k)).roundTrips = k ∧
    (runGraph alwaysToolModel query (2 * k)).node ≠ NodeTag.done ∧
    route_after_agent (msgs ++ [Msg.ai c (t :: ts)]) = Route.tools ∧
    route_after_agent (msgs ++ [Msg.ai c []]) = Route.done := by
  obtain ⟨hn, hr⟩ := alwaysTool_run_unbounded query k
  refine ⟨hr, ?_, route_after_concat_ai msgs c t ts, route_after_concat_no_tools msgs c⟩
  rw [hn]
  intro hcontra
  cases hcontra

end Noon
